import Mathlib

/-!
Verification of the Enable-RDP-Bot remediation engine against its
natural-language specification.

The Python sources are shallowly embedded as executable Lean definitions:

* `enable_rdp_bot.py` — the NSG rule analysis (`check_nsg_rules`), the
  allow-rule fix (`fix_nsg_rdp_rule`, modelled as `fix_target_priority` /
  `fix_nsg_apply`) and the troubleshooting driver (`troubleshoot_rdp`,
  modelled as `troubleshoot_plan` plus the priority plumbing).
* `src/agents/resolution_agent.py` — the post-fix validation
  (`_validate_resolution`, modelled as `validate_resolution`).
* `src/safety/guardrails.py` — action authorization
  (`_check_action_authorization`) and input validation (`validate_input`,
  including the regex-based prompt-injection and PII detection and the
  PII masking).

Machine integers are modelled as `Nat` (NSG priorities are non-negative
and far below any overflow boundary; Python ints do not overflow).
Azure `SecurityRule.priority` is a required field of the SDK model, so it
is modelled as a total `Nat` field.
-/

/-! ## NSG rule model (Azure SDK `SecurityRule`, fields used by the bot) -/

/-- An Azure network security group rule, restricted to the fields the
bot reads: name, access (`"Allow"`/`"Deny"`), direction
(`"Inbound"`/`"Outbound"`), protocol, priority, and the destination port
range(s). -/
structure SecurityRule where
  name : String
  access : String
  direction : String
  protocol : String
  priority : Nat
  destination_port_range : Option String
  destination_port_ranges : List String
deriving Repr, DecidableEq

/-- `enable_rdp_bot.py` port test (used in both `check_nsg_rules` and
`fix_nsg_rdp_rule`): the rule affects RDP iff `destination_port_range ==
'3389'` or `'3389' in destination_port_ranges`. -/
def has_rdp (r : SecurityRule) : Bool :=
  r.destination_port_range == some "3389" || r.destination_port_ranges.contains "3389"

/-- The analysis record built by `check_nsg_rules` (single NSG). -/
structure NsgInfo where
  rdp_allowed : Bool
  rules : List SecurityRule
  rdp_conflict : Bool
  allow_priority : Option Nat
  deny_priority : Option Nat
  has_deny_rdp : Bool
deriving Repr, DecidableEq

def initNsgInfo : NsgInfo :=
  { rdp_allowed := false, rules := [], rdp_conflict := false,
    allow_priority := none, deny_priority := none, has_deny_rdp := false }

/-- Python `if cur is None or p < cur: cur = p` — option-minimum update. -/
def optMinUpd (cur : Option Nat) (p : Nat) : Option Nat :=
  match cur with
  | none => some p
  | some q => if p < q then some p else some q

/-- One iteration of the rule loop of `check_nsg_rules`
(`enable_rdp_bot.py` lines 203-242): if the rule affects port 3389 it is
recorded, `rdp_allowed` is set for inbound allow rules, and the minimum
inbound allow / deny priorities are tracked. -/
def checkStep (info : NsgInfo) (r : SecurityRule) : NsgInfo :=
  if has_rdp r then
    { rdp_allowed := info.rdp_allowed || (r.access == "Allow" && r.direction == "Inbound")
      rules := info.rules ++ [r]
      rdp_conflict := info.rdp_conflict
      allow_priority :=
        if r.access == "Allow" && r.direction == "Inbound" then
          optMinUpd info.allow_priority r.priority
        else info.allow_priority
      deny_priority :=
        if r.access == "Deny" && r.direction == "Inbound" then
          optMinUpd info.deny_priority r.priority
        else info.deny_priority
      has_deny_rdp := info.has_deny_rdp || (r.access == "Deny" && r.direction == "Inbound") }
  else info

/-- `check_nsg_rules` (`enable_rdp_bot.py` lines 165-249) over a single
NSG rule set: fold the rule loop, then set `rdp_conflict` when both an
allow and a deny priority exist and the deny priority is strictly lower
(lines 244-247). -/
def check_nsg_rules (rules : List SecurityRule) : NsgInfo :=
  let info := rules.foldl checkStep initNsgInfo
  match info.allow_priority, info.deny_priority with
  | some a, some d => if d < a then { info with rdp_conflict := true } else info
  | _, _ => info

/-! ## `fix_nsg_rdp_rule` (enable_rdp_bot.py lines 416-527) -/

/-- Whether a rule is an inbound port-3389 deny rule (the rules tracked
as `highest_precedence_deny` candidates in `fix_nsg_rdp_rule`). -/
def isInboundRdpDeny (r : SecurityRule) : Bool :=
  has_rdp r && r.direction == "Inbound" && r.access == "Deny"

/-- Whether a rule is an inbound port-3389 allow rule. -/
def isInboundRdpAllow (r : SecurityRule) : Bool :=
  has_rdp r && r.direction == "Inbound" && r.access == "Allow"

/-- One iteration of the `highest_precedence_deny` scan of
`fix_nsg_rdp_rule` (lines 461-481): skip rules that do not affect port
3389 or are not inbound; keep the first deny rule with strictly smallest
priority. -/
def fixMinDenyStep (acc : Option SecurityRule) (r : SecurityRule) : Option SecurityRule :=
  if !(has_rdp r) then acc
  else if r.direction != "Inbound" then acc
  else if r.access == "Deny" then
    match acc with
    | none => some r
    | some cur => if r.priority < cur.priority then some r else cur
  else acc

/-- The `highest_precedence_deny` scan of `fix_nsg_rdp_rule` (lines
461-481): among inbound rules affecting port 3389 with access `Deny`,
keep the first rule with strictly smallest priority. -/
def fixMinDeny (rules : List SecurityRule) : Option SecurityRule :=
  rules.foldl fixMinDenyStep none

/-- The `existing_allow` scan of `fix_nsg_rdp_rule` (last matching
inbound allow rule wins, line 476). -/
def fixExistingAllow (rules : List SecurityRule) : Option SecurityRule :=
  rules.foldl
    (fun acc r =>
      if !(has_rdp r) then acc
      else if r.direction != "Inbound" then acc
      else if r.access == "Allow" then some r
      else acc)
    none

/-- Target priority computation of `fix_nsg_rdp_rule` (lines 453-488):
start from `desired_priority` (default 500); if a highest-precedence
inbound deny rule on port 3389 exists with priority `d`, clamp to
`max 100 (min (d - 1) target)`. -/
def fix_target_priority (rules : List SecurityRule) (desired_priority : Option Nat) : Nat :=
  let target := desired_priority.getD 500
  match fixMinDeny rules with
  | some dr => max 100 (min (dr.priority - 1) target)
  | none => target

/-- The `AllowRDP` rule written by `fix_nsg_rdp_rule` (lines 491-502). -/
def allowRdpRule (p : Nat) : SecurityRule :=
  { name := "AllowRDP", access := "Allow", direction := "Inbound",
    protocol := "Tcp", priority := p,
    destination_port_range := some "3389", destination_port_ranges := [] }

/-- Azure `security_rules.begin_create_or_update` keyed by rule name:
replace the rule(s) with the given name, or append the rule if no rule
with that name exists. -/
def upsertRule (rules : List SecurityRule) (r : SecurityRule) : List SecurityRule :=
  if rules.any (fun x => x.name == r.name) then
    rules.map (fun x => if x.name == r.name then r else x)
  else rules ++ [r]

/-- Result of one `fix_nsg_rdp_rule` run: the new rule set, the priority
written, the reported action and status (the non-exception path always
reports `success`, lines 512-519). -/
structure FixResult where
  rules : List SecurityRule
  priority : Nat
  action : String
  status : String
deriving Repr, DecidableEq

/-- `fix_nsg_rdp_rule` as a state transformer on the NSG rule set. -/
def fix_nsg_rdp_rule (rules : List SecurityRule) (desired_priority : Option Nat) : FixResult :=
  let p := fix_target_priority rules desired_priority
  { rules := upsertRule rules (allowRdpRule p)
    priority := p
    action := if (fixExistingAllow rules).isNone then "nsg_rule_added" else "nsg_rule_updated"
    status := "success" }

/-- Just the rule-set effect of `fix_nsg_rdp_rule`. -/
def fix_nsg_apply (rules : List SecurityRule) (desired_priority : Option Nat) : List SecurityRule :=
  (fix_nsg_rdp_rule rules desired_priority).rules

/-! ## `troubleshoot_rdp` (enable_rdp_bot.py lines 529-596) -/

/-- The corrective actions attempted in one troubleshooting run. -/
inductive BotAction where
  | startMachine : BotAction
  | ensureAllowRule : Option Nat → BotAction
deriving Repr, DecidableEq

def BotAction.isEnsureAllowRule : BotAction → Bool
  | .ensureAllowRule _ => true
  | _ => false

/-- The `desired_priority` computed by `troubleshoot_rdp` before calling
`fix_nsg_rdp_rule` (lines 577-580): `max 100 (deny_priority - 1)` when
the analysis found a deny priority, else `None`. -/
def troubleshoot_desired_priority (info : NsgInfo) : Option Nat :=
  match info.deny_priority with
  | some d => some (max 100 (d - 1))
  | none => none

/-- The fix plan of `troubleshoot_rdp` (lines 566-582): start the VM
only when the collected power state is `deallocated`; then always run
the NSG allow-rule fix with the priority derived from the analysis. -/
def troubleshoot_plan (power_state : String) (info : NsgInfo) : List BotAction :=
  (if power_state == "deallocated" then [BotAction.startMachine] else [])
    ++ [BotAction.ensureAllowRule (troubleshoot_desired_priority info)]

/-- The priority actually written by a full `troubleshoot_rdp` run on a
given rule set (analysis feeding the fix). -/
def pipeline_target_priority (rules : List SecurityRule) : Nat :=
  fix_target_priority rules (troubleshoot_desired_priority (check_nsg_rules rules))

/-! ## Resolution agent validation (src/agents/resolution_agent.py lines 304-368) -/

/-- One entry of `execution_results["actions"]` as built by
`_execute_resolution_actions` (lines 237-267): the action kind and
whether it succeeded. -/
structure ExecAction where
  action : String
  success : Bool
deriving Repr, DecidableEq

/-- `failure_count` as maintained by `_execute_resolution_actions`
(incremented exactly once per non-successful action). -/
def failure_count (actions : List ExecAction) : Nat :=
  (actions.filter (fun a => !a.success)).length

/-- The facts observed by the post-fix probes
(`vm_operations.get_vm_status`, `network_checks.check_nsg_rules`,
`azure_diagnostics.check_guest_firewall`). -/
structure PostState where
  vm_status : String
  rdp_allowed : Bool
  rdp_blocked : Bool
deriving Repr, DecidableEq

/-- A validation check record (`validation_results["checks"]` entry). -/
structure ValCheck where
  check : String
  success : Bool
deriving Repr, DecidableEq

/-- The per-action check generation of `_validate_resolution` (lines
321-356): only successful actions are checked; `start_vm` expects the VM
status to be `running`, `update_nsg_rules` expects `rdp_allowed`,
`configure_firewall` expects the guest firewall not to block RDP; other
action kinds produce no check. -/
def checkFor (post : PostState) (a : ExecAction) : Option ValCheck :=
  if a.success then
    if a.action == "start_vm" then
      some { check := "vm_status", success := post.vm_status == "running" }
    else if a.action == "update_nsg_rules" then
      some { check := "nsg_rules", success := post.rdp_allowed }
    else if a.action == "configure_firewall" then
      some { check := "firewall", success := !post.rdp_blocked }
    else none
  else none

/-- The validation outcome (`validation_results`). -/
structure ValidationOutcome where
  success : Bool
  checks : List ValCheck
  overall_status : String
deriving Repr, DecidableEq

/-- `_validate_resolution` (lines 304-368): build the checks, then
downgrade `success`/`overall_status` to `partial_success` when some
check failed (lines 359-362) and to `failed` when any executed action
failed (lines 364-366, overriding the previous assignment). -/
def validate_resolution (post : PostState) (actions : List ExecAction) : ValidationOutcome :=
  let checks := actions.filterMap (checkFor post)
  let failed_checks := checks.filter (fun c => !c.success)
  let st1 : Bool × String :=
    if !failed_checks.isEmpty then (false, "partial_success") else (true, "success")
  let st2 : Bool × String :=
    if failure_count actions > 0 then (false, "failed") else st1
  { success := st2.1, checks := checks, overall_status := st2.2 }

/-! ## Guardrails: action authorization (src/safety/guardrails.py lines 342-364) -/

/-- The fixed `action_permissions` map of `_check_action_authorization`. -/
def action_permissions : List (String × List String) :=
  [ ("start_vm", ["Microsoft.Compute/virtualMachines/start/action"]),
    ("stop_vm", ["Microsoft.Compute/virtualMachines/powerOff/action"]),
    ("restart_vm", ["Microsoft.Compute/virtualMachines/restart/action"]),
    ("update_nsg_rules", ["Microsoft.Network/networkSecurityGroups/write"]),
    ("configure_firewall", ["Microsoft.Compute/virtualMachines/runCommand/action"]),
    ("start_rdp_service", ["Microsoft.Compute/virtualMachines/runCommand/action"]) ]

/-- Python `dict.get(action, [])` on the permission map. -/
def requiredPermissionsFor (action : String) : List String :=
  match action_permissions.find? (fun kv => kv.1 == action) with
  | some kv => kv.2
  | none => []

/-- `_check_action_authorization` (lines 342-364): look the action up in
the fixed map; an action with no mapped permissions is denied outright;
otherwise the caller must hold at least one of the mapped permission
strings. -/
def check_action_authorization (action : String) (user_permissions : List String) : Bool :=
  let required := requiredPermissionsFor action
  if required.isEmpty then false
  else required.any (fun r => user_permissions.contains r)

/-! ## A small regex interpreter

`guardrails.py` drives prompt-injection and PII detection through
`re.search` / `re.findall`. The patterns only use literals, character
classes, greedy counted repetition of a character class, alternation and
the word-boundary assertion `\b`, so they are embedded via a small
backtracking matcher with exactly Python's preference order: greedy
(longest-first) repetition and left-first alternation, leftmost match. -/

/-- Regular expressions over the constructs used by `guardrails.py`:
empty pattern, single character class, concatenation, alternation,
greedy repetition of a character class with a lower and optional upper
bound, and the word boundary assertion. -/
inductive RE where
  | eps : RE
  | cls : (Char → Bool) → RE
  | seq : RE → RE → RE
  | alt : RE → RE → RE
  | rep : Nat → Option Nat → (Char → Bool) → RE
  | bnd : RE

/-- Python `\w` over ASCII: letters, digits, underscore. -/
def isWordChar (c : Char) : Bool :=
  c.isAlpha || c.isDigit || c == '_'

def isWordOpt : Option Char → Bool
  | some c => isWordChar c
  | none => false

/-- `\b`: the word-ness of the previous character differs from the
word-ness of the next character (outside the string counts as
non-word). -/
def atBoundary (prev : Option Char) (s : List Char) : Bool :=
  isWordOpt prev != (match s with | [] => false | c :: _ => isWordChar c)

/-- Consume exactly `n` characters of class `p`, tracking the previous
character for `\b`. -/
def consumeCls (p : Char → Bool) : Nat → Option Char → List Char →
    Option (Option Char × List Char)
  | 0, prev, s => some (prev, s)
  | _ + 1, _, [] => none
  | n + 1, _, c :: cs => if p c then consumeCls p n (some c) cs else none

/-- Greedy repetition: try consuming `lo + fuel` characters first, then
back off one at a time down to `lo`, running the continuation `k` on
each attempt. -/
def repTry (p : Char → Bool) (k : Option Char → List Char → Option (List Char))
    (prev : Option Char) (s : List Char) (lo : Nat) :
    Nat → Option (List Char)
  | 0 =>
    match consumeCls p lo prev s with
    | some (pv, rest) => k pv rest
    | none => none
  | fuel + 1 =>
    match consumeCls p (lo + fuel + 1) prev s with
    | some (pv, rest) =>
      match k pv rest with
      | some r => some r
      | none => repTry p k prev s lo fuel
    | none => repTry p k prev s lo fuel

/-- Backtracking matcher in continuation-passing style. `mtch re prev s
k` attempts to match `re` at the start of `s` (with `prev` the character
just before `s`, for `\b`) and runs `k` on the remainder; alternatives
are tried in Python's preference order and the first success wins. -/
def mtch : RE → Option Char → List Char →
    (Option Char → List Char → Option (List Char)) → Option (List Char)
  | .eps, prev, s, k => k prev s
  | .cls _, _, [], _ => none
  | .cls p, _, c :: cs, k => if p c then k (some c) cs else none
  | .seq a b, prev, s, k => mtch a prev s (fun pv s2 => mtch b pv s2 k)
  | .alt a b, prev, s, k =>
    match mtch a prev s k with
    | some r => some r
    | none => mtch b prev s k
  | .bnd, prev, s, k => if atBoundary prev s then k prev s else none
  | .rep lo hi p, prev, s, k =>
    let run := (s.takeWhile p).length
    let mx := match hi with | some h => min h run | none => run
    if mx < lo then none else repTry p k prev s lo (mx - lo)

/-- The remainder of the input after the preferred match of `re` at the
current position, if any. -/
def matchRest (re : RE) (prev : Option Char) (s : List Char) : Option (List Char) :=
  mtch re prev s (fun _ rest => some rest)

/-- Python `re.search`: scan positions left to right looking for a
match. -/
def reSearchF (re : RE) : Nat → Option Char → List Char → Bool
  | 0, _, _ => false
  | fuel + 1, prev, s =>
    match matchRest re prev s with
    | some _ => true
    | none =>
      match s with
      | [] => false
      | c :: cs => reSearchF re fuel (some c) cs

def reSearch (re : RE) (s : List Char) : Bool :=
  reSearchF re (s.length + 1) none s

def lastCharOf (l : List Char) (prev : Option Char) : Option Char :=
  match l.getLast? with
  | some c => some c
  | none => prev

/-- Python `re.findall` (no capture groups): repeatedly take the
leftmost preferred match, continue after its end (empty matches advance
by one character). -/
def scanAllF (re : RE) : Nat → Option Char → List Char → List (List Char)
  | 0, _, _ => []
  | fuel + 1, prev, s =>
    match matchRest re prev s with
    | some rest =>
      let len := s.length - rest.length
      if len == 0 then
        match s with
        | [] => []
        | c :: cs => scanAllF re fuel (some c) cs
      else
        s.take len :: scanAllF re fuel (lastCharOf (s.take len) prev) (s.drop len)
    | none =>
      match s with
      | [] => []
      | c :: cs => scanAllF re fuel (some c) cs

def reFindall (re : RE) (s : List Char) : List (List Char) :=
  scanAllF re (s.length + 1) none s

def reChar (c : Char) : RE := RE.cls (fun x => x == c)

def reStr (s : String) : RE := (s.data.map reChar).foldr RE.seq RE.eps

def reCat (l : List RE) : RE := l.foldr RE.seq RE.eps

/-! ## Guardrails: input validation (src/safety/guardrails.py lines 47-133, 233-274, 325-340) -/

/-- Python `\s` over ASCII. -/
def isPySpace (c : Char) : Bool :=
  c == ' ' || c == '\t' || c == '\n' || c == '\r' || c == '\x0b' || c == '\x0c'

/-- The ten `injection_patterns` of `guardrails.py` (lines 57-68),
hand-compiled: word literals separated by `\s+` (or `\s*` before a
colon), and the chat-template literals. -/
def injection_patterns : List RE :=
  [ reCat [reStr "ignore", RE.rep 1 none isPySpace, reStr "previous",
           RE.rep 1 none isPySpace, reStr "instructions"],
    reCat [reStr "forget", RE.rep 1 none isPySpace, reStr "everything"],
    reCat [reStr "you", RE.rep 1 none isPySpace, reStr "are",
           RE.rep 1 none isPySpace, reStr "now"],
    reCat [reStr "act", RE.rep 1 none isPySpace, reStr "as",
           RE.rep 1 none isPySpace, reStr "if"],
    reCat [reStr "pretend", RE.rep 1 none isPySpace, reStr "to",
           RE.rep 1 none isPySpace, reStr "be"],
    reCat [reStr "system", RE.rep 0 none isPySpace, reChar ':'],
    reCat [reStr "assistant", RE.rep 0 none isPySpace, reChar ':'],
    reCat [reStr "user", RE.rep 0 none isPySpace, reChar ':'],
    reStr "<|im_start|>",
    reStr "<|im_end|>" ]

/-- `[A-Za-z0-9._%+-]` (email local part). -/
def emailLocalChar (c : Char) : Bool :=
  c.isAlpha || c.isDigit || c == '.' || c == '_' || c == '%' || c == '+' || c == '-'

/-- `[A-Za-z0-9.-]` (email domain). -/
def emailDomainChar (c : Char) : Bool :=
  c.isAlpha || c.isDigit || c == '.' || c == '-'

/-- `[A-Z|a-z]` — as written in the source, the class also contains the
literal `|`. -/
def emailTldChar (c : Char) : Bool :=
  c.isUpper || c == '|' || c.isLower

def isDigitChar (c : Char) : Bool := c.isDigit

/-- `[-\s]` (credit-card separator). -/
def dashOrSpace (c : Char) : Bool := c == '-' || isPySpace c

/-- `\b[A-Za-z0-9._%+-]+@[A-Za-z0-9.-]+\.[A-Z|a-z]{2,}\b` -/
def email_pattern : RE :=
  reCat [RE.bnd, RE.rep 1 none emailLocalChar, reChar '@',
         RE.rep 1 none emailDomainChar, reChar '.',
         RE.rep 2 none emailTldChar, RE.bnd]

/-- `\b\d{3}-\d{3}-\d{4}\b|\b\(\d{3}\)\s?\d{3}-\d{4}\b` -/
def phone_pattern : RE :=
  RE.alt
    (reCat [RE.bnd, RE.rep 3 (some 3) isDigitChar, reChar '-',
            RE.rep 3 (some 3) isDigitChar, reChar '-',
            RE.rep 4 (some 4) isDigitChar, RE.bnd])
    (reCat [RE.bnd, reChar '(', RE.rep 3 (some 3) isDigitChar, reChar ')',
            RE.rep 0 (some 1) isPySpace, RE.rep 3 (some 3) isDigitChar,
            reChar '-', RE.rep 4 (some 4) isDigitChar, RE.bnd])

/-- `\b\d{3}-\d{2}-\d{4}\b` -/
def ssn_pattern : RE :=
  reCat [RE.bnd, RE.rep 3 (some 3) isDigitChar, reChar '-',
         RE.rep 2 (some 2) isDigitChar, reChar '-',
         RE.rep 4 (some 4) isDigitChar, RE.bnd]

/-- `\b\d{4}[-\s]?\d{4}[-\s]?\d{4}[-\s]?\d{4}\b` -/
def credit_card_pattern : RE :=
  reCat [RE.bnd, RE.rep 4 (some 4) isDigitChar, RE.rep 0 (some 1) dashOrSpace,
         RE.rep 4 (some 4) isDigitChar, RE.rep 0 (some 1) dashOrSpace,
         RE.rep 4 (some 4) isDigitChar, RE.rep 0 (some 1) dashOrSpace,
         RE.rep 4 (some 4) isDigitChar, RE.bnd]

/-- `\b(?:[0-9]{1,3}\.){3}[0-9]{1,3}\b` -/
def ip_address_pattern : RE :=
  reCat [RE.bnd,
         RE.rep 1 (some 3) isDigitChar, reChar '.',
         RE.rep 1 (some 3) isDigitChar, reChar '.',
         RE.rep 1 (some 3) isDigitChar, reChar '.',
         RE.rep 1 (some 3) isDigitChar, RE.bnd]

/-- The `pii_patterns` dict of `guardrails.py` (lines 48-54) in
insertion order. -/
def pii_patterns : List (String × RE) :=
  [ ("email", email_pattern),
    ("phone", phone_pattern),
    ("ssn", ssn_pattern),
    ("credit_card", credit_card_pattern),
    ("ip_address", ip_address_pattern) ]

def toLowerList (s : List Char) : List Char := s.map Char.toLower

/-- `_detect_prompt_injection` (lines 233-245): the input is lowercased
and each pattern is tried with `re.search` (the extra `IGNORECASE` flag
is redundant on the already-lowercase patterns); the index of the first
matching pattern is reported. -/
def detect_prompt_injection (text : List Char) : Option Nat :=
  injection_patterns.findIdx? (fun re => reSearch re (toLowerList text))

/-- One entry of the `pii_found` list of `_detect_pii`. -/
structure PiiItem where
  pii_type : String
  value : List Char
deriving Repr, DecidableEq

/-- `_detect_pii` (lines 247-263): `re.findall` every PII pattern over
the raw input (the patterns' character classes already contain both
cases, so `IGNORECASE` adds nothing) and collect the matches per type in
dict order. -/
def detect_pii (text : List Char) : List PiiItem :=
  (pii_patterns.map (fun pr => (reFindall pr.2 text).map
    (fun v => PiiItem.mk pr.1 v))).flatten

/-- `c == p` prefix test used by the replace scan. -/
def beginsWith : List Char → List Char → Bool
  | _, [] => true
  | [], _ :: _ => false
  | c :: cs, p :: ps => c == p && beginsWith cs ps

/-- Python `str.replace`: replace every non-overlapping occurrence of
`pat`, scanning left to right. -/
def replaceAllF (pat rep : List Char) : Nat → List Char → List Char
  | 0, s => s
  | fuel + 1, s =>
    match s with
    | [] => []
    | c :: cs =>
      if !pat.isEmpty && beginsWith s pat then
        rep ++ replaceAllF pat rep fuel (s.drop pat.length)
      else
        c :: replaceAllF pat rep fuel cs

def replaceAll (s pat rep : List Char) : List Char :=
  replaceAllF pat rep s.length s

/-- `'*' * len(pii_value)`. -/
def maskOf (v : List Char) : List Char := v.map (fun _ => '*')

/-- `_mask_pii` (lines 265-274): for each detected item, replace every
occurrence of its value with asterisks of the same length. -/
def mask_pii (text : List Char) (pii_items : List PiiItem) : List Char :=
  pii_items.foldl (fun t it => replaceAll t it.value (maskOf it.value)) text

def containsSub (s sub : List Char) : Bool :=
  (List.range (s.length + 1)).any (fun i => beginsWith (s.drop i) sub)

/-- The `dangerous_keywords` of `_detect_suspicious_operations`
(lines 331-334). -/
def dangerous_keywords : List String :=
  [ "delete everything", "remove all", "destroy", "wipe",
    "format c:", "rm -rf", "del /f /s", "shutdown -s -t 0" ]

/-- `_detect_suspicious_operations` (lines 325-340): substring scan of
the lowercased input; each hit contributes one warning message. -/
def detect_suspicious_operations (text : List Char) : List String :=
  (dangerous_keywords.filter
    (fun kw => containsSub (toLowerList text) kw.data)).map
    (fun kw => "Suspicious operation detected: " ++ kw)

/-- An entry of `validation_result["blocked_content"]`. -/
inductive BlockedContent where
  | promptInjection : Nat → BlockedContent
  | pii : PiiItem → BlockedContent
deriving Repr, DecidableEq

/-- `validate_input`'s result record. -/
structure ValidationResult where
  safe : Bool
  reason : String
  warnings : List String
  blocked_content : List BlockedContent
  sanitized_input : List Char
deriving Repr, DecidableEq

/-- `validate_input` (lines 70-133) with the Content Safety client not
configured (the default `SafetyGuardrails()` construction used by the
agents): an injection match blocks immediately; otherwise PII detection
adds a warning, records the items and masks the sanitized input; the
suspicious-operation scan appends further warnings. -/
def validate_input (user_input : List Char) : ValidationResult :=
  match detect_prompt_injection user_input with
  | some i =>
    { safe := false, reason := "Prompt injection detected", warnings := [],
      blocked_content := [BlockedContent.promptInjection i],
      sanitized_input := user_input }
  | none =>
    let found := detect_pii user_input
    let r1 : ValidationResult :=
      if !found.isEmpty then
        { safe := true, reason := "", warnings := ["PII detected in input"],
          blocked_content := found.map BlockedContent.pii,
          sanitized_input := mask_pii user_input found }
      else
        { safe := true, reason := "", warnings := [], blocked_content := [],
          sanitized_input := user_input }
    { r1 with warnings := r1.warnings ++ detect_suspicious_operations user_input }

/-! ## Specification-side minimum of matching rule priorities -/

/-- Priorities of the inbound port-3389 allow rules, in rule order. -/
def allow_priorities (rules : List SecurityRule) : List Nat :=
  (rules.filter isInboundRdpAllow).map (fun r => r.priority)

/-- Priorities of the inbound port-3389 deny rules, in rule order. -/
def deny_priorities (rules : List SecurityRule) : List Nat :=
  (rules.filter isInboundRdpDeny).map (fun r => r.priority)

/-- The minimum of a list of naturals, `none` on the empty list. -/
def minList : List Nat → Option Nat
  | [] => none
  | x :: xs =>
    match minList xs with
    | none => some x
    | some m => some (min x m)

/-- Minimum of two optional naturals (`none` is neutral). -/
def optMin : Option Nat → Option Nat → Option Nat
  | none, b => b
  | some a, none => some a
  | some a, some b => some (min a b)

theorem optMin_none_right (a : Option Nat) : optMin a none = a := by
  cases a <;> rfl

theorem optMinUpd_eq_optMin (o : Option Nat) (p : Nat) :
    optMinUpd o p = optMin o (some p) := by
  cases o with
  | none => rfl
  | some q =>
    simp only [optMinUpd, optMin]
    rcases Nat.lt_or_ge p q with h | h
    · simp [h, Nat.min_eq_right (Nat.le_of_lt h)]
    · simp [Nat.not_lt.mpr h, Nat.min_eq_left h]

theorem optMin_assoc (a b c : Option Nat) :
    optMin (optMin a b) c = optMin a (optMin b c) := by
  cases a <;> cases b <;> cases c <;> simp [optMin, Nat.min_assoc]

theorem minList_cons (x : Nat) (xs : List Nat) :
    minList (x :: xs) = optMin (some x) (minList xs) := by
  cases h : minList xs <;> simp [minList, h, optMin]

/-! ## The fold of `check_nsg_rules` computes the matching minima -/

theorem checkStep_allow (info : NsgInfo) (r : SecurityRule) :
    (checkStep info r).allow_priority =
      if isInboundRdpAllow r then optMinUpd info.allow_priority r.priority
      else info.allow_priority := by
  unfold checkStep isInboundRdpAllow
  cases hp : has_rdp r <;>
    cases ha : r.access == "Allow" <;>
      cases hd : r.direction == "Inbound" <;> simp [hp, ha, hd]

theorem checkStep_deny (info : NsgInfo) (r : SecurityRule) :
    (checkStep info r).deny_priority =
      if isInboundRdpDeny r then optMinUpd info.deny_priority r.priority
      else info.deny_priority := by
  unfold checkStep isInboundRdpDeny
  cases hp : has_rdp r <;>
    cases ha : r.access == "Deny" <;>
      cases hd : r.direction == "Inbound" <;> simp [hp, ha, hd]

theorem checkStep_conflict (info : NsgInfo) (r : SecurityRule) :
    (checkStep info r).rdp_conflict = info.rdp_conflict := by
  unfold checkStep
  cases hp : has_rdp r <;> simp [hp]

theorem foldl_check_allow (rules : List SecurityRule) (info : NsgInfo) :
    (rules.foldl checkStep info).allow_priority =
      optMin info.allow_priority (minList (allow_priorities rules)) := by
  induction rules generalizing info with
  | nil => simp [allow_priorities, minList, optMin_none_right]
  | cons r rs ih =>
    rw [List.foldl_cons, ih]
    cases h : isInboundRdpAllow r with
    | true =>
      rw [checkStep_allow, if_pos h, optMinUpd_eq_optMin]
      have hfil : allow_priorities (r :: rs) = r.priority :: allow_priorities rs := by
        simp [allow_priorities, h]
      rw [hfil, minList_cons, ← optMin_assoc]
    | false =>
      rw [checkStep_allow, if_neg (by simp [h])]
      have hfil : allow_priorities (r :: rs) = allow_priorities rs := by
        simp [allow_priorities, h]
      rw [hfil]

theorem foldl_check_deny (rules : List SecurityRule) (info : NsgInfo) :
    (rules.foldl checkStep info).deny_priority =
      optMin info.deny_priority (minList (deny_priorities rules)) := by
  induction rules generalizing info with
  | nil => simp [deny_priorities, minList, optMin_none_right]
  | cons r rs ih =>
    rw [List.foldl_cons, ih]
    cases h : isInboundRdpDeny r with
    | true =>
      rw [checkStep_deny, if_pos h, optMinUpd_eq_optMin]
      have hfil : deny_priorities (r :: rs) = r.priority :: deny_priorities rs := by
        simp [deny_priorities, h]
      rw [hfil, minList_cons, ← optMin_assoc]
    | false =>
      rw [checkStep_deny, if_neg (by simp [h])]
      have hfil : deny_priorities (r :: rs) = deny_priorities rs := by
        simp [deny_priorities, h]
      rw [hfil]

theorem foldl_check_conflict (rules : List SecurityRule) (info : NsgInfo) :
    (rules.foldl checkStep info).rdp_conflict = info.rdp_conflict := by
  induction rules generalizing info with
  | nil => rfl
  | cons r rs ih => rw [List.foldl_cons, ih, checkStep_conflict]

/-! ## The deny scan of `fix_nsg_rdp_rule` computes the matching minimum -/

theorem fixMinDenyStep_priority (acc : Option SecurityRule) (r : SecurityRule) :
    (fixMinDenyStep acc r).map (fun x => x.priority) =
      if isInboundRdpDeny r then
        optMinUpd (acc.map (fun x => x.priority)) r.priority
      else acc.map (fun x => x.priority) := by
  unfold fixMinDenyStep isInboundRdpDeny
  cases hp : has_rdp r with
  | false => simp [hp]
  | true =>
    cases hd : r.direction == "Inbound" with
    | false => simp [hp, hd, bne]
    | true =>
      cases ha : r.access == "Deny" with
      | false => simp [hp, hd, ha, bne]
      | true =>
        cases acc with
        | none => simp [hp, hd, ha, bne, optMinUpd]
        | some cur =>
          by_cases hlt : r.priority < cur.priority <;>
            simp [hp, hd, ha, bne, optMinUpd, hlt]

theorem foldl_fixMinDeny (rules : List SecurityRule) (acc : Option SecurityRule) :
    (rules.foldl fixMinDenyStep acc).map (fun x => x.priority) =
      optMin (acc.map (fun x => x.priority)) (minList (deny_priorities rules)) := by
  induction rules generalizing acc with
  | nil => simp [deny_priorities, minList, optMin_none_right]
  | cons r rs ih =>
    rw [List.foldl_cons, ih]
    cases h : isInboundRdpDeny r with
    | true =>
      rw [fixMinDenyStep_priority, if_pos h, optMinUpd_eq_optMin]
      have hfil : deny_priorities (r :: rs) = r.priority :: deny_priorities rs := by
        simp [deny_priorities, h]
      rw [hfil, minList_cons, ← optMin_assoc]
    | false =>
      rw [fixMinDenyStep_priority, if_neg (by simp [h])]
      have hfil : deny_priorities (r :: rs) = deny_priorities rs := by
        simp [deny_priorities, h]
      rw [hfil]

theorem fixMinDeny_priority (rules : List SecurityRule) :
    (fixMinDeny rules).map (fun x => x.priority) = minList (deny_priorities rules) := by
  unfold fixMinDeny
  rw [foldl_fixMinDeny]
  rfl

/-- `fix_target_priority` depends on the rule set only through the
minimum inbound port-3389 deny priority. -/
theorem fix_target_priority_eq (rules : List SecurityRule) (desired : Option Nat) :
    fix_target_priority rules desired =
      (match minList (deny_priorities rules) with
       | some d => max 100 (min (d - 1) (desired.getD 500))
       | none => desired.getD 500) := by
  unfold fix_target_priority
  have h := fixMinDeny_priority rules
  cases hf : fixMinDeny rules with
  | none => rw [hf] at h; simp at h; rw [← h]
  | some dr => rw [hf] at h; simp at h; rw [← h]

/-! ## Upsert lemmas (for the idempotence analysis of the fix) -/

theorem fix_nsg_apply_def (rules : List SecurityRule) (desired : Option Nat) :
    fix_nsg_apply rules desired =
      upsertRule rules (allowRdpRule (fix_target_priority rules desired)) := rfl

theorem upsert_map_idem (rules : List SecurityRule) (r : SecurityRule) :
    (rules.map (fun x => if x.name == r.name then r else x)).map
        (fun x => if x.name == r.name then r else x) =
      rules.map (fun x => if x.name == r.name then r else x) := by
  rw [List.map_map]
  apply List.map_congr_left
  intro x _
  by_cases h : x.name == r.name
  · simp only [Function.comp_apply, if_pos h]
    simp
  · simp only [Function.comp_apply, if_neg h]

theorem upsert_any (rules : List SecurityRule) (r : SecurityRule) :
    (upsertRule rules r).any (fun x => x.name == r.name) = true := by
  unfold upsertRule
  split
  case isTrue h =>
    rw [List.any_eq_true] at h ⊢
    obtain ⟨x, hx, hname⟩ := h
    exact ⟨r, List.mem_map.mpr ⟨x, hx, by simp [hname]⟩, by simp⟩
  case isFalse h =>
    simp

theorem upsert_idem (rules : List SecurityRule) (r : SecurityRule) :
    upsertRule (upsertRule rules r) r = upsertRule rules r := by
  have hany := upsert_any rules r
  show (if (upsertRule rules r).any (fun x => x.name == r.name) then
          (upsertRule rules r).map (fun x => if x.name == r.name then r else x)
        else (upsertRule rules r) ++ [r]) = upsertRule rules r
  rw [if_pos hany]
  unfold upsertRule
  split
  case isTrue h =>
    exact upsert_map_idem rules r
  case isFalse h =>
    rw [List.map_append]
    have h1 : rules.map (fun x => if x.name == r.name then r else x) = rules := by
      have hall : ∀ x ∈ rules, (x.name == r.name) = false := by
        simpa [List.any_eq_true] using h
      calc rules.map (fun x => if x.name == r.name then r else x)
          = rules.map id := List.map_congr_left (fun x hx => by simp [hall x hx])
        _ = rules := List.map_id rules
    have h2 : [r].map (fun x => if x.name == r.name then r else x) = [r] := by simp
    rw [h1, h2]

/-! ## The fix does not disturb the deny minimum (outside the name collision) -/

theorem deny_priorities_append_allow (rules : List SecurityRule) (p : Nat) :
    deny_priorities (rules ++ [allowRdpRule p]) = deny_priorities rules := by
  have hallow : isInboundRdpDeny (allowRdpRule p) = false := rfl
  simp [deny_priorities, List.filter_append, hallow]

theorem deny_priorities_map_allow (rules : List SecurityRule) (p : Nat)
    (H : ∀ r ∈ rules, r.name = "AllowRDP" → isInboundRdpDeny r = false) :
    deny_priorities (rules.map
        (fun x => if x.name == (allowRdpRule p).name then allowRdpRule p else x)) =
      deny_priorities rules := by
  induction rules with
  | nil => rfl
  | cons x xs ih =>
    have Hxs : ∀ r ∈ xs, r.name = "AllowRDP" → isInboundRdpDeny r = false :=
      fun r hr => H r (List.mem_cons_of_mem _ hr)
    rw [List.map_cons]
    by_cases hx : x.name == (allowRdpRule p).name
    · have hximage : (if x.name == (allowRdpRule p).name then allowRdpRule p else x) =
        allowRdpRule p := if_pos hx
      have hxdeny : isInboundRdpDeny x = false :=
        H x (List.mem_cons_self x xs) (by simpa [allowRdpRule] using (beq_iff_eq.mp hx))
      have hpdeny : isInboundRdpDeny (allowRdpRule p) = false := rfl
      rw [hximage]
      simp only [deny_priorities, List.filter_cons, hxdeny, hpdeny]
      simpa [deny_priorities] using ih Hxs
    · have hximage : (if x.name == (allowRdpRule p).name then allowRdpRule p else x) = x :=
        if_neg hx
      rw [hximage]
      simp only [deny_priorities, List.filter_cons]
      cases hd : isInboundRdpDeny x <;>
        simpa [deny_priorities, hd] using ih Hxs

theorem deny_priorities_fix (rules : List SecurityRule) (desired : Option Nat)
    (H : ∀ r ∈ rules, r.name = "AllowRDP" → isInboundRdpDeny r = false) :
    deny_priorities (fix_nsg_apply rules desired) = deny_priorities rules := by
  rw [fix_nsg_apply_def]
  unfold upsertRule
  split
  · exact deny_priorities_map_allow rules _ H
  · exact deny_priorities_append_allow rules _

theorem fix_target_priority_stable (rules : List SecurityRule) (desired : Option Nat)
    (H : ∀ r ∈ rules, r.name = "AllowRDP" → isInboundRdpDeny r = false) :
    fix_target_priority (fix_nsg_apply rules desired) desired =
      fix_target_priority rules desired := by
  rw [fix_target_priority_eq, fix_target_priority_eq,
    deny_priorities_fix rules desired H]

/-! ## Concrete rule sets used by the scenario theorems -/

/-- Scenario A rule set: a single inbound deny rule for port 3389 at
precedence 1000 (`{name:"Deny3389", access:deny, precedence:1000,
port:3389}`). -/
def scenarioARules : List SecurityRule :=
  [ { name := "Deny3389", access := "Deny", direction := "Inbound",
      protocol := "Tcp", priority := 1000,
      destination_port_range := some "3389", destination_port_ranges := [] } ]

/-- Scenario B rule set: `{Deny3389, deny, 200}` and
`{AllowRDP, allow, 1000}`. -/
def scenarioBRules : List SecurityRule :=
  [ { name := "Deny3389", access := "Deny", direction := "Inbound",
      protocol := "Tcp", priority := 200,
      destination_port_range := some "3389", destination_port_ranges := [] },
    { name := "AllowRDP", access := "Allow", direction := "Inbound",
      protocol := "Tcp", priority := 1000,
      destination_port_range := some "3389", destination_port_ranges := [] } ]

/-- A fully open ACL: one inbound allow rule for port 3389, no deny. -/
def openRules : List SecurityRule :=
  [ { name := "AllowRDP", access := "Allow", direction := "Inbound",
      protocol := "Tcp", priority := 500,
      destination_port_range := some "3389", destination_port_ranges := [] } ]

/-- An inbound port-3389 deny rule at the minimum legal precedence 100. -/
def denyAt100 : List SecurityRule :=
  [ { name := "DenyRDP", access := "Deny", direction := "Inbound",
      protocol := "Tcp", priority := 100,
      destination_port_range := some "3389", destination_port_ranges := [] } ]

/-- An inbound port-3389 deny rule at precedence 150 that happens to be
named `AllowRDP` — the name the fix upserts. -/
def denyNamedAllowRdp : List SecurityRule :=
  [ { name := "AllowRDP", access := "Deny", direction := "Inbound",
      protocol := "Tcp", priority := 150,
      destination_port_range := some "3389", destination_port_ranges := [] } ]

/-- An inbound port-3389 deny rule at precedence 150 with a distinct
name. -/
def denyAt150 : List SecurityRule :=
  [ { name := "DenyRDP", access := "Deny", direction := "Inbound",
      protocol := "Tcp", priority := 150,
      destination_port_range := some "3389", destination_port_ranges := [] } ]

/-! ## Claim C1 -/

/-- Claim C1, counterexample: on a fully open ACL (port allowed, no
conflict) and a running VM, `troubleshoot_rdp` still produces and
executes an `EnsureAllowRule` action (the NSG fix is unconditional),
contradicting the claim that none is produced in that situation. -/
theorem c1_counterexample :
    (check_nsg_rules openRules).rdp_allowed = true ∧
    (check_nsg_rules openRules).rdp_conflict = false ∧
    (troubleshoot_plan "running" (check_nsg_rules openRules)).countP
      (fun a => a.isEnsureAllowRule) = 1 := by decide

/-- Claim C1, amended: every troubleshooting run plans exactly one
`EnsureAllowRule` action regardless of the ACL analysis (the write is
relied on to be idempotent), and a `StartMachine` action is planned iff
the collected power state is `deallocated`. -/
theorem c1_ensure_rule_unconditional (power_state : String) (info : NsgInfo) :
    (troubleshoot_plan power_state info).countP (fun a => a.isEnsureAllowRule) = 1 ∧
    (BotAction.startMachine ∈ troubleshoot_plan power_state info ↔
      power_state = "deallocated") := by
  unfold troubleshoot_plan
  by_cases h : power_state == "deallocated"
  · simp [h, List.countP_append, List.countP_cons, BotAction.isEnsureAllowRule,
      beq_iff_eq.mp h]
  · constructor
    · simp [h, List.countP_cons, BotAction.isEnsureAllowRule]
    · simp only [h]
      constructor
      · intro hmem
        simp at hmem
      · intro heq
        exact absurd (beq_iff_eq.mpr heq) h

/-! ## Claim C2 -/

/-- Claim C2: for every rule set in which some inbound rule matching
port 3389 denies (with minimum matching deny precedence `d`) and some
allows (with minimum matching allow precedence `a`), `check_nsg_rules`
reports `rdp_conflict = true` iff `d < a`. -/
theorem c2_conflict_iff (rules : List SecurityRule) (d a : Nat)
    (hd : minList (deny_priorities rules) = some d)
    (ha : minList (allow_priorities rules) = some a) :
    (check_nsg_rules rules).rdp_conflict = true ↔ d < a := by
  unfold check_nsg_rules
  have h1 : (List.foldl checkStep initNsgInfo rules).allow_priority = some a := by
    rw [foldl_check_allow]
    exact ha
  have h2 : (List.foldl checkStep initNsgInfo rules).deny_priority = some d := by
    rw [foldl_check_deny]
    exact hd
  have h3 : (List.foldl checkStep initNsgInfo rules).rdp_conflict = false := by
    rw [foldl_check_conflict]
    rfl
  simp only [h1, h2]
  by_cases hlt : d < a
  · simp [hlt]
  · simp [hlt, h3]

/-- Claim C2, witness: Scenario B (`Deny3389` at 200, `AllowRDP` at
1000) has minimum deny precedence 200 and minimum allow precedence 1000,
and the resolver reports a conflict since `200 < 1000`. -/
theorem c2_witness : (check_nsg_rules scenarioBRules).rdp_conflict = true :=
  (c2_conflict_iff scenarioBRules 200 1000 (by decide) (by decide)).mpr (by decide)

/-! ## Claim C3 -/

/-- Claim C3, counterexample: with a single matching inbound deny rule
at the minimum legal precedence `d = 100`, the computed fix precedence
is `p = 100`, so `p < d` fails — the allow rule ties with the deny rule
instead of strictly outranking it. -/
theorem c3_counterexample :
    minList (deny_priorities denyAt100) = some 100 ∧
    fix_target_priority denyAt100 none = 100 ∧
    ¬ fix_target_priority denyAt100 none < 100 ∧
    ¬ pipeline_target_priority denyAt100 < 100 := by decide

/-- Claim C3, amended: for every rule set with a matching inbound deny
rule of minimum precedence `d` and any requested priority, the computed
fix precedence `p` always satisfies `p ≥ 100`; it satisfies `p < d`
whenever `d > 100`, and degenerates to `p = 100` (not below `d`) when
`d ≤ 100`. -/
theorem c3_fix_priority_bounds (rules : List SecurityRule) (desired : Option Nat)
    (d : Nat) (hd : minList (deny_priorities rules) = some d) :
    100 ≤ fix_target_priority rules desired ∧
    (100 < d → fix_target_priority rules desired < d) ∧
    (d ≤ 100 → fix_target_priority rules desired = 100) := by
  rw [fix_target_priority_eq, hd]
  show 100 ≤ max 100 (min (d - 1) (desired.getD 500)) ∧
    (100 < d → max 100 (min (d - 1) (desired.getD 500)) < d) ∧
    (d ≤ 100 → max 100 (min (d - 1) (desired.getD 500)) = 100)
  have hmin : min (d - 1) (desired.getD 500) ≤ d - 1 := Nat.min_le_left _ _
  refine ⟨Nat.le_max_left _ _, ?_, ?_⟩
  · intro h100
    exact max_lt (by omega) (lt_of_le_of_lt hmin (by omega))
  · intro h100
    exact Nat.max_eq_left (by omega)

/-- Claim C3, witness: for Scenario A's deny rule at 1000 and no
requested priority, the fix precedence (500) is at least 100 and
strictly below the deny precedence. -/
theorem c3_witness :
    100 ≤ fix_target_priority scenarioARules none ∧
    (100 < 1000 → fix_target_priority scenarioARules none < 1000) ∧
    (1000 ≤ 100 → fix_target_priority scenarioARules none = 100) :=
  c3_fix_priority_bounds scenarioARules none 1000 (by decide)

/-! ## Claim C4 -/

/-- Claim C4, counterexample: on Scenario A's rule set (single inbound
deny at 1000, no allow), the full troubleshooting run computes fix
precedence 999 — not the default 500 claimed — because
`troubleshoot_rdp` passes `max 100 (deny_priority - 1) = 999` as the
desired priority before `fix_nsg_rdp_rule` clamps it. -/
theorem c4_counterexample :
    pipeline_target_priority scenarioARules = 999 ∧
    pipeline_target_priority scenarioARules ≠ 500 := by decide

/-- Claim C4, amended: on Scenario A's rule set the resolver reports
`portAllowed = false` and `conflict = false`, and the troubleshooting
run computes fix precedence 999 (one below the deny rule); the default
500 is used only when `fix_nsg_rdp_rule` is invoked with no requested
priority, i.e. when the analysis found no deny priority. -/
theorem c4_scenario_a :
    (check_nsg_rules scenarioARules).rdp_allowed = false ∧
    (check_nsg_rules scenarioARules).rdp_conflict = false ∧
    pipeline_target_priority scenarioARules = 999 ∧
    fix_target_priority scenarioARules none = 500 := by decide

/-! ## Claim C5 -/

/-- Claim C5, counterexample: with the collected power state `stopped`
and a fully open ACL, the plan is `[EnsureAllowRule]` — the VM is not
started (only the state `deallocated` triggers a start) and the NSG fix
still runs — so the plan is not `[StartMachine]`. -/
theorem c5_counterexample :
    (check_nsg_rules openRules).rdp_allowed = true ∧
    troubleshoot_plan "stopped" (check_nsg_rules openRules) =
      [BotAction.ensureAllowRule none] ∧
    troubleshoot_plan "stopped" (check_nsg_rules openRules) ≠
      [BotAction.startMachine] := by decide

/-- Claim C5, amended: on an ACL with no matching deny rule, a run with
power state `stopped` plans only the (unconditional) NSG fix and no
start action; only power state `deallocated` yields the plan
`[StartMachine, EnsureAllowRule]`; and in the resolution agent's
validation a successful `start_vm` action is checked by requiring the
re-collected VM status to be `running`, reporting overall `success`
exactly when it is. -/
theorem c5_stopped_vs_deallocated (rules : List SecurityRule) (post : PostState)
    (hopen : (check_nsg_rules rules).deny_priority = none) :
    troubleshoot_plan "stopped" (check_nsg_rules rules) =
      [BotAction.ensureAllowRule none] ∧
    troubleshoot_plan "deallocated" (check_nsg_rules rules) =
      [BotAction.startMachine, BotAction.ensureAllowRule none] ∧
    ((validate_resolution post [{ action := "start_vm", success := true }]).overall_status =
        "success" ↔ post.vm_status = "running") := by
  refine ⟨?_, ?_, ?_⟩
  · unfold troubleshoot_plan troubleshoot_desired_priority
    rw [hopen]
    simp
  · unfold troubleshoot_plan troubleshoot_desired_priority
    rw [hopen]
    simp
  · unfold validate_resolution checkFor failure_count
    cases hrun : post.vm_status == "running" <;>
      simp_all [beq_iff_eq]

/-- Claim C5, witness: instantiated on the open ACL and a post state
reporting `running`. -/
theorem c5_witness :
    troubleshoot_plan "stopped" (check_nsg_rules openRules) =
      [BotAction.ensureAllowRule none] ∧
    troubleshoot_plan "deallocated" (check_nsg_rules openRules) =
      [BotAction.startMachine, BotAction.ensureAllowRule none] ∧
    ((validate_resolution { vm_status := "running", rdp_allowed := true, rdp_blocked := false }
        [{ action := "start_vm", success := true }]).overall_status = "success" ↔
      ("running" : String) = "running") :=
  c5_stopped_vs_deallocated openRules
    { vm_status := "running", rdp_allowed := true, rdp_blocked := false } (by decide)

/-! ## Claim C6 -/

theorem all_success_of_not_any (l : List ValCheck)
    (h : l.any (fun c => !c.success) = false) :
    l.all (fun c => c.success) = true := by
  induction l with
  | nil => rfl
  | cons c cs ih =>
    cases hc : c.success with
    | false =>
      rw [List.any_cons, hc] at h
      simp at h
    | true =>
      rw [List.all_cons, hc]
      rw [List.any_cons, hc] at h
      simp only [Bool.not_true, Bool.false_or] at h
      simp [ih h]

theorem filter_not_success_isEmpty (checks : List ValCheck) :
    (checks.filter (fun c => !c.success)).isEmpty =
      !(checks.any (fun c => !c.success)) := by
  induction checks with
  | nil => rfl
  | cons c cs ih =>
    cases hc : c.success <;> simp [List.filter_cons, List.any_cons, hc, ih]

/-- The mixed execution outcome used against Claim C6: a successful
`start_vm` followed by a failed `update_nsg_rules`. -/
def mixedExecActions : List ExecAction :=
  [ { action := "start_vm", success := true },
    { action := "update_nsg_rules", success := false } ]

/-- Claim C6, counterexample: one action succeeded (`start_vm`, whose
post-condition check passes) and one failed, yet `_validate_resolution`
reports `failed`, not `partial_success` — the failure-count branch
overrides the partial-success classification whatever succeeded
before. -/
theorem c6_counterexample :
    (validate_resolution { vm_status := "running", rdp_allowed := true, rdp_blocked := false }
        mixedExecActions).overall_status = "failed" ∧
    mixedExecActions.any (fun a => a.success) = true ∧
    (validate_resolution { vm_status := "running", rdp_allowed := true, rdp_blocked := false }
        mixedExecActions).overall_status ≠ "partial_success" := by decide

/-- Claim C6, amended: the overall status is `success` only if every
generated post-condition check holds and every executed action
succeeded; otherwise it is `failed` whenever at least one action failed
(even if others succeeded), and `partial_success` exactly when all
actions succeeded but some check failed. -/
theorem c6_overall_status (post : PostState) (actions : List ExecAction) :
    ((validate_resolution post actions).overall_status =
      if failure_count actions > 0 then "failed"
      else if (actions.filterMap (checkFor post)).any (fun c => !c.success) then
        "partial_success"
      else "success") ∧
    ((validate_resolution post actions).overall_status = "success" →
      (actions.filterMap (checkFor post)).all (fun c => c.success) = true ∧
      failure_count actions = 0) := by
  have hchar : (validate_resolution post actions).overall_status =
      if failure_count actions > 0 then "failed"
      else if (actions.filterMap (checkFor post)).any (fun c => !c.success) then
        "partial_success"
      else "success" := by
    unfold validate_resolution
    by_cases hf : failure_count actions > 0
    · simp [hf]
    · cases hany : (actions.filterMap (checkFor post)).any (fun c => !c.success) <;>
        simp [hf, filter_not_success_isEmpty, hany]
  refine ⟨hchar, ?_⟩
  intro hsucc
  rw [hchar] at hsucc
  by_cases hf : failure_count actions > 0
  · rw [if_pos hf] at hsucc
    exact absurd hsucc (by decide)
  · rw [if_neg hf] at hsucc
    cases hany : (actions.filterMap (checkFor post)).any (fun c => !c.success)
    · exact ⟨all_success_of_not_any _ hany, by omega⟩
    · rw [if_pos (by simp [hany])] at hsucc
      exact absurd hsucc (by decide)

/-- Claim C6, witness: with a single successful `start_vm` whose check
passes, the theorem's characterization instantiates and its success
implication discharges to all-checks-pass and zero failures. -/
theorem c6_witness :
    ([({ action := "start_vm", success := true } : ExecAction)].filterMap
        (checkFor { vm_status := "running", rdp_allowed := true, rdp_blocked := false })).all
      (fun c => c.success) = true ∧
    failure_count [({ action := "start_vm", success := true } : ExecAction)] = 0 :=
  (c6_overall_status { vm_status := "running", rdp_allowed := true, rdp_blocked := false }
    [{ action := "start_vm", success := true }]).2 (by decide)

/-! ## Claim C7 -/

/-- Claim C7: for every caller permission set, an action kind absent
from the fixed `action_permissions` map is rejected —
`_check_action_authorization` fails closed on unknown actions. -/
theorem c7_fail_closed (action : String) (perms : List String)
    (h : (action_permissions.find? (fun kv => kv.1 == action)) = none) :
    check_action_authorization action perms = false := by
  unfold check_action_authorization requiredPermissionsFor
  rw [h]
  rfl

/-- Claim C7, witness: `delete_vm` (a known dangerous operation that is
nevertheless absent from the permission map) is rejected even for a
caller holding every permission string occurring in the map. -/
theorem c7_witness :
    check_action_authorization "delete_vm"
      ((action_permissions.map Prod.snd).flatten) = false :=
  c7_fail_closed "delete_vm" ((action_permissions.map Prod.snd).flatten) (by decide)

/-! ## Claim C10 -/

/-- Claim C10: authorization is monotone in the caller's permission
set — enlarging the permission set never revokes a previously granted
action. -/
theorem c10_authorization_monotone (action : String) (P Q : List String)
    (hsub : ∀ x, x ∈ P → x ∈ Q)
    (hgrant : check_action_authorization action P = true) :
    check_action_authorization action Q = true := by
  unfold check_action_authorization at hgrant ⊢
  by_cases he : (requiredPermissionsFor action).isEmpty
  · rw [if_pos he] at hgrant
    exact absurd hgrant (by decide)
  · rw [if_neg he] at hgrant ⊢
    rw [List.any_eq_true] at hgrant ⊢
    obtain ⟨r, hr, hrP⟩ := hgrant
    refine ⟨r, hr, ?_⟩
    rw [List.contains_iff_exists_mem_beq] at hrP ⊢
    obtain ⟨x, hx, hbeq⟩ := hrP
    exact ⟨x, hsub x hx, hbeq⟩

/-- Claim C10, witness: `start_vm` authorized under the singleton start
permission remains authorized after adding an unrelated permission. -/
theorem c10_witness :
    check_action_authorization "start_vm"
      ["Microsoft.Compute/virtualMachines/start/action",
       "Microsoft.Network/networkSecurityGroups/write"] = true :=
  c10_authorization_monotone "start_vm"
    ["Microsoft.Compute/virtualMachines/start/action"]
    ["Microsoft.Compute/virtualMachines/start/action",
     "Microsoft.Network/networkSecurityGroups/write"]
    (fun x hx => by
      rw [List.mem_singleton] at hx
      rw [hx]
      exact List.mem_cons_self _ _)
    (by decide)

/-! ## Claim C9 -/

/-- Claim C9, counterexample: if the NSG already contains an inbound
port-3389 *deny* rule that happens to be named `AllowRDP`, the first fix
run replaces it (target 149, one under the deny's 150), so the second
run no longer sees any deny and recomputes the default target 500 — the
rule's precedence drifts from 149 to 500 and the states after the two
runs differ. -/
theorem c9_counterexample :
    fix_nsg_apply denyNamedAllowRdp none = [allowRdpRule 149] ∧
    fix_nsg_apply (fix_nsg_apply denyNamedAllowRdp none) none = [allowRdpRule 500] ∧
    fix_nsg_apply (fix_nsg_apply denyNamedAllowRdp none) none ≠
      fix_nsg_apply denyNamedAllowRdp none ∧
    (check_nsg_rules (fix_nsg_apply (fix_nsg_apply denyNamedAllowRdp none) none)).allow_priority ≠
      (check_nsg_rules (fix_nsg_apply denyNamedAllowRdp none)).allow_priority := by decide

/-- Claim C9, amended: provided no rule named `AllowRDP` is itself a
matching inbound deny rule (the name the fix overwrites), running the
fix twice with the same requested priority is idempotent: the second run
writes the same single `AllowRDP` rule at the same precedence, leaves
the rule set — and hence the recomputed ACL analysis — unchanged, and
still reports `success`. -/
theorem c9_fix_idempotent (rules : List SecurityRule) (desired : Option Nat)
    (H : ∀ r ∈ rules, r.name = "AllowRDP" → isInboundRdpDeny r = false) :
    fix_nsg_apply (fix_nsg_apply rules desired) desired = fix_nsg_apply rules desired ∧
    (fix_nsg_rdp_rule (fix_nsg_apply rules desired) desired).priority =
      (fix_nsg_rdp_rule rules desired).priority ∧
    check_nsg_rules (fix_nsg_apply (fix_nsg_apply rules desired) desired) =
      check_nsg_rules (fix_nsg_apply rules desired) ∧
    (fix_nsg_rdp_rule (fix_nsg_apply rules desired) desired).status = "success" := by
  have hstable : fix_target_priority (fix_nsg_apply rules desired) desired =
      fix_target_priority rules desired :=
    fix_target_priority_stable rules desired H
  have hstate : fix_nsg_apply (fix_nsg_apply rules desired) desired =
      fix_nsg_apply rules desired := by
    rw [fix_nsg_apply_def (fix_nsg_apply rules desired) desired, hstable,
      fix_nsg_apply_def rules desired]
    exact upsert_idem rules (allowRdpRule (fix_target_priority rules desired))
  refine ⟨hstate, ?_, by rw [hstate], rfl⟩
  show fix_target_priority (fix_nsg_apply rules desired) desired =
    fix_target_priority rules desired
  exact hstable

/-- Claim C9, witness: on an NSG with a single (differently named)
inbound deny rule at 150 and no requested priority, the double run is
idempotent as the amended claim states. -/
theorem c9_witness :
    fix_nsg_apply (fix_nsg_apply denyAt150 none) none = fix_nsg_apply denyAt150 none ∧
    (fix_nsg_rdp_rule (fix_nsg_apply denyAt150 none) none).priority =
      (fix_nsg_rdp_rule denyAt150 none).priority ∧
    check_nsg_rules (fix_nsg_apply (fix_nsg_apply denyAt150 none) none) =
      check_nsg_rules (fix_nsg_apply denyAt150 none) ∧
    (fix_nsg_rdp_rule (fix_nsg_apply denyAt150 none) none).status = "success" :=
  c9_fix_idempotent denyAt150 none (by decide)

/-! ## Claim C8 -/

/-- Claim C8: for every free-text input, an instruction-override
(prompt-injection) match makes `validate_input` mark the result unsafe
(hard block); if no injection matches but PII patterns do, the result
stays safe, carries the PII warning, and the sanitized text is the input
with every detected PII value masked by `_mask_pii`. -/
theorem c8_input_validation (input : List Char) :
    ((detect_prompt_injection input).isSome → (validate_input input).safe = false) ∧
    (detect_prompt_injection input = none → detect_pii input ≠ [] →
      (validate_input input).safe = true ∧
      "PII detected in input" ∈ (validate_input input).warnings ∧
      (validate_input input).sanitized_input = mask_pii input (detect_pii input)) := by
  unfold validate_input
  cases h : detect_prompt_injection input with
  | some i =>
    refine ⟨fun _ => rfl, fun hnone => ?_⟩
    exact absurd hnone (by simp)
  | none =>
    refine ⟨fun hs => ?_, fun _ hpii => ?_⟩
    · simp at hs
    · have hne : (detect_pii input).isEmpty = false := by
        cases hd : detect_pii input with
        | nil => exact absurd hd hpii
        | cons x xs => rfl
      simp [hne]

/-- A free-text input matching an instruction-override pattern
(`you\s+are\s+now`). -/
def injectionSample : List Char := "you are now".data

/-- A free-text input containing only PII (an email address). -/
def piiSample : List Char := "mail a@b.co".data

/-- Claim C8, witness: the injection sample is hard-blocked, while the
email-only sample stays safe, is flagged with the PII warning, and its
sanitized text is the masked input. -/
theorem c8_witness :
    (validate_input injectionSample).safe = false ∧
    ((validate_input piiSample).safe = true ∧
     "PII detected in input" ∈ (validate_input piiSample).warnings ∧
     (validate_input piiSample).sanitized_input = mask_pii piiSample (detect_pii piiSample)) :=
  ⟨(c8_input_validation injectionSample).1 (by decide),
   (c8_input_validation piiSample).2 (by decide) (by decide)⟩
